import Mathlib

/-!
Verification of the PT4 database pruner (src/pruner.py) against its
specification.  The engine is shallowly embedded: tables become lists of
rows, dates become integers (day numbers), SQL queries become pure list
functions, and the per-run transaction is threaded explicitly.

Database session semantics follow PostgreSQL with `autocommit = False`
(pruner.py line 116): every statement of a run executes inside one
transaction; a statement that raises an error leaves the transaction in
an aborted state, in which every later statement raises
`InFailedSqlTransaction` until the transaction ends, and a COMMIT issued
on an aborted transaction is executed by the server as a ROLLBACK.
Statement-level visibility (READ COMMITTED) means each statement reads
the database state current at its own execution, which is made explicit
where concurrent writers matter.
-/

/-- One row of a `*_hand_summary` table: the hand identifier and the
`date_played` value (modelled as an integer day number). -/
structure SummaryRow where
  idHand : Nat
  datePlayed : Int
deriving DecidableEq

/-- One row of a `*_hand_player_statistics` table: the owning hand and the
participating player. -/
structure StatRow where
  idHand : Nat
  idPlayer : Nat
deriving DecidableEq

/-- The two tables of one hand-type category (summary = parent,
stats = child). -/
structure CategoryDB where
  summary : List SummaryRow
  stats : List StatRow
deriving DecidableEq

/-- The whole database: the cash category and the tourney category
(get_table_names, pruner.py lines 94-106). -/
structure DB where
  cash : CategoryDB
  tourney : CategoryDB
deriving DecidableEq

/-- Hand type selected by `--type` (pruner.py lines 80-86). -/
inductive HandType where
  | cash
  | tourney
deriving DecidableEq

/-- Table lookup for a hand type (get_table_names). -/
def DB.get (db : DB) : HandType → CategoryDB
  | .cash => db.cash
  | .tourney => db.tourney

/-- Replace the tables of one hand type. -/
def DB.set (db : DB) : HandType → CategoryDB → DB
  | .cash, c => ⟨c, db.tourney⟩
  | .tourney, c => ⟨db.cash, c⟩

/-- Players of one category with at least one hand played strictly after
`now - days`: the per-category arm of the `global_active_players` CTE
(pruner.py lines 134-148), `SELECT id_player FROM stats JOIN summary ON
id_hand WHERE date_played > CURRENT_DATE - days`. -/
def activePlayersOf (c : CategoryDB) (now days : Int) : List Nat :=
  (c.stats.filter (fun ps =>
    c.summary.any (fun s => s.idHand == ps.idHand && decide (now - days < s.datePlayed)))).map
    (fun ps => ps.idPlayer)

/-- The `global_active_players` CTE as a set-returning query: the distinct
union of both categories' active players (pruner.py lines 134-148). -/
def globalActivePlayersList (db : DB) (now days : Int) : List Nat :=
  (activePlayersOf db.cash now days ++ activePlayersOf db.tourney now days).eraseDups

/-- Membership test against `global_active_players`, i.e. the semantics of
joining a player id against the CTE.  Stated directly as the existence of
a qualifying participation row in either category. -/
def isActivePlayer (db : DB) (now days : Int) (p : Nat) : Bool :=
  (db.cash.stats.any (fun ps => ps.idPlayer == p &&
    db.cash.summary.any (fun s => s.idHand == ps.idHand && decide (now - days < s.datePlayed)))) ||
  (db.tourney.stats.any (fun ps => ps.idPlayer == p &&
    db.tourney.summary.any (fun s => s.idHand == ps.idHand && decide (now - days < s.datePlayed))))

/-- The `ORDER BY date_played ASC, id_hand ASC` comparison (pruner.py
line 195). -/
def rowLE (a b : SummaryRow) : Bool :=
  decide (a.datePlayed < b.datePlayed) ||
    (decide (a.datePlayed = b.datePlayed) && decide (a.idHand ≤ b.idHand))

/-- Insertion step of the candidate ordering. -/
def insertRow (a : SummaryRow) : List SummaryRow → List SummaryRow
  | [] => [a]
  | b :: rest => if rowLE a b then a :: b :: rest else b :: insertRow a rest

/-- Sort summary rows by `(date_played ASC, id_hand ASC)`. -/
def sortRows : List SummaryRow → List SummaryRow
  | [] => []
  | a :: rest => insertRow a (sortRows rest)

/-- The `current_batch_candidates` CTE (pruner.py lines 190-198): summary
rows with `date_played <= cutoff`, ordered by `(date_played, id_hand)`,
skipping `off` rows and keeping at most `lim` rows. -/
def candidates (c : CategoryDB) (cutoff : Int) (lim off : Nat) : List SummaryRow :=
  (((sortRows (c.summary.filter (fun s => decide (s.datePlayed ≤ cutoff)))).drop off).take lim)

/-- `EXISTS (SELECT 1 FROM player_stats JOIN global_active_players gap ON
player_stats.id_player = gap.id_player WHERE player_stats.id_hand = h)`
(pruner.py lines 201-207), with the active set derived from `db`. -/
def hasActiveParticipant (db : DB) (ht : HandType) (now days : Int) (h : Nat) : Bool :=
  (db.get ht).stats.any (fun ps => ps.idHand == h && isActivePlayer db now days ps.idPlayer)

/-- One window's classification query (pruner.py lines 188-212): candidate
hands of the window whose participation rows all reference inactive
players.  The active set is re-derived from `db`, the database state
visible to this statement, exactly as the query text re-embeds the
`global_active_players` CTE. -/
def classifyWindow (db : DB) (ht : HandType) (now days cutoff : Int) (lim off : Nat) :
    List Nat :=
  ((candidates (db.get ht) cutoff lim off).filter (fun s =>
    !(hasActiveParticipant db ht now days s.idHand))).map (fun s => s.idHand)

/-- Modelled from the spec: the fixed-snapshot classification demanded by
spec sections 4.1 and 9 — candidates are read from the statement-time
state `db`, but activity is judged against the Active-Entity Set of the
`snapshot` state resolved once before scanning.  This definition follows
the spec's words, for comparison with `classifyWindow`, which is what the
code does. -/
def classifyWindowFixedSnapshot (snapshot db : DB) (ht : HandType) (now days cutoff : Int)
    (lim off : Nat) : List Nat :=
  ((candidates (db.get ht) cutoff lim off).filter (fun s =>
    !((db.get ht).stats.any (fun ps =>
      ps.idHand == s.idHand && isActivePlayer snapshot now days ps.idPlayer)))).map
    (fun s => s.idHand)

/-- `BATCH_SIZE = 500000  # Fixed batch size for analysis window`
(pruner.py line 165). -/
def BATCH_SIZE : Nat := 500000

/-- `total_input_batches = math.ceil(hand_limit / BATCH_SIZE)`
(pruner.py line 166). -/
def windowCount (limit w : Nat) : Nat := (limit + w - 1) / w

/-- The `(offset, size)` windows actually visited by the loop of pruner.py
lines 177-183: window `i` has offset `i * w` and size
`min w (limit - i * w)`, and the loop breaks when the size would be
non-positive (the defensive break at line 182-183). -/
def scanWindowsGo (limit w : Nat) : Nat → Nat → List (Nat × Nat)
  | 0, _ => []
  | n + 1, i =>
    let off := i * w
    let cur := min w (limit - off)
    if cur = 0 then [] else (off, cur) :: scanWindowsGo limit w n (i + 1)

/-- All windows of one category scan. -/
def scanWindows (limit w : Nat) : List (Nat × Nat) :=
  scanWindowsGo limit w (windowCount limit w) 0

/-- Result of the scanning part of `execute_bulk_pruning` (pruner.py lines
150-247): the pre-scan active-player count, the accumulated prunable hand
ids, and whether a classification query raised mid-scan (caught locally at
lines 221-223, which breaks the loop). -/
structure ScanOut where
  activeCount : Nat
  ids : List Nat
  errored : Bool
deriving DecidableEq

/-- The window loop (pruner.py lines 177-247).  `dbs i` is the database
state visible to window `i`'s statement (READ COMMITTED); `fails i` says
whether window `i`'s classification query raises.  A failure keeps the
ids accumulated so far and stops the loop. -/
def scanGo (dbs : Nat → DB) (fails : Nat → Bool) (ht : HandType) (now days cutoff : Int) :
    List (Nat × Nat) → Nat → List Nat × Bool
  | [], _ => ([], false)
  | (off, sz) :: rest, i =>
    if fails i then ([], true)
    else
      let out := scanGo dbs fails ht now days cutoff rest (i + 1)
      (classifyWindow (dbs i) ht now days cutoff sz off ++ out.1, out.2)

/-- The scan phase over a given window list: the pre-scan count of
`global_active_players` (pruner.py line 159, executed against `dbCount`,
the state visible to that statement), then the window loop. -/
def scanPhaseWs (dbCount : DB) (dbs : Nat → DB) (fails : Nat → Bool) (ht : HandType)
    (now days cutoff : Int) (ws : List (Nat × Nat)) : ScanOut :=
  ⟨(globalActivePlayersList dbCount now days).length,
   (scanGo dbs fails ht now days cutoff ws 0).1,
   (scanGo dbs fails ht now days cutoff ws 0).2⟩

/-- The scan phase of `execute_bulk_pruning` (pruner.py lines 150-247):
the window list is the one derived from the hand limit and the fixed
`BATCH_SIZE` (lines 165-166). -/
def scanPhase (dbCount : DB) (dbs : Nat → DB) (fails : Nat → Bool) (ht : HandType)
    (now days cutoff : Int) (handLimit : Nat) : ScanOut :=
  scanPhaseWs dbCount dbs fails ht now days cutoff (scanWindows handLimit BATCH_SIZE)

/-- Child-table delete (pruner.py lines 292-299): remove the stats rows
whose `id_hand` is staged. -/
def deleteStatsRows (c : CategoryDB) (ids : List Nat) : CategoryDB :=
  ⟨c.summary, c.stats.filter (fun ps => !(ids.contains ps.idHand))⟩

/-- Parent-table delete (pruner.py lines 302-309): remove the summary rows
whose `id_hand` is staged. -/
def deleteSummaryRows (c : CategoryDB) (ids : List Nat) : CategoryDB :=
  ⟨c.summary.filter (fun s => !(ids.contains s.idHand)), c.stats⟩

/-- Outcome of the delete phase (pruner.py lines 275-315): the tables after
both deletes, the two `cursor.rowcount` values, and whether the
`summary_deleted != hands_to_delete_count` warning of lines 311-313 was
printed. -/
structure RemoveResult where
  catdb : CategoryDB
  summaryDeleted : Nat
  statsDeleted : Nat
  warning : Bool
deriving DecidableEq

/-- The Bulk Remover (pruner.py lines 275-315): stage the ids, delete the
stats (child) rows, then the summary (parent) rows, record the rowcounts
and the mismatch warning.  Staging a unique-keyed temp table is modelled
by using the id list itself. -/
def bulkRemove (c : CategoryDB) (ids : List Nat) : RemoveResult :=
  let statsDeleted := c.stats.countP (fun ps => ids.contains ps.idHand)
  let c1 := deleteStatsRows c ids
  let summaryDeleted := c1.summary.countP (fun s => ids.contains s.idHand)
  let c2 := deleteSummaryRows c1 ids
  ⟨c2, summaryDeleted, statsDeleted, summaryDeleted != ids.length⟩

/-- The per-run transaction: the uncommitted database state, and whether a
failed statement has left the transaction aborted (PostgreSQL: every later
statement raises until the transaction ends). -/
structure TxState where
  db : DB
  aborted : Bool
deriving DecidableEq

/-- What one `execute_bulk_pruning` call exposes: the returned pair
`(summary_deleted, stats_deleted)` of line 315/273/270 (`retSummary`,
`retStats`; in dry run `retSummary` is `hands_to_delete_count`), the
printed eligible count of line 255, the mismatch warning, whether a
classification query failed mid-scan, and the printed active-player
count of line 161. -/
structure PruneResult where
  retSummary : Nat
  retStats : Nat
  eligible : Nat
  warning : Bool
  scanErrored : Bool
  activeCount : Nat
deriving DecidableEq

/-- One `execute_bulk_pruning` call either returns, or raises an
exception that propagates to `main`'s handler. -/
inductive PruneStep where
  | raised (st : TxState)
  | done (res : PruneResult) (st : TxState)
deriving DecidableEq

/-- The decision tree of `execute_bulk_pruning` after the scan (pruner.py
lines 249-315), as a function of the scan outcome: a zero count returns
`(0, 0)` before any further statement (line 269-270); dry run returns
`(count, 0)` (line 272-273); otherwise the `CREATE TEMP TABLE` statement
of line 282 raises if a mid-scan failure left the transaction aborted,
else the staged deletion runs. -/
def prunePhase (ht : HandType) (dryRun : Bool) (db : DB) (scan : ScanOut) : PruneStep :=
  let st1 : TxState := ⟨db, scan.errored⟩
  let count := scan.ids.length
  if count = 0 then .done ⟨0, 0, 0, false, scan.errored, scan.activeCount⟩ st1
  else if dryRun then .done ⟨count, 0, count, false, scan.errored, scan.activeCount⟩ st1
  else if st1.aborted then .raised st1
  else
    let out := bulkRemove (db.get ht) scan.ids
    .done ⟨out.summaryDeleted, out.statsDeleted, count, out.warning, scan.errored,
      scan.activeCount⟩ ⟨db.set ht out.catdb, false⟩

/-- `execute_bulk_pruning` (pruner.py lines 124-315): the pre-scan count
query raises if the transaction is already aborted; otherwise the scan
phase runs (a mid-scan classification failure is caught locally and
breaks the loop, leaving the transaction aborted) and `prunePhase`
decides the rest. -/
def executeBulkPruning (ht : HandType) (now days cutoff : Int) (dryRun : Bool)
    (handLimit : Nat) (fails : Nat → Bool) (st : TxState) : PruneStep :=
  if st.aborted then .raised st
  else prunePhase ht dryRun st.db
    (scanPhase st.db (fun _ => st.db) fails ht now days cutoff handLimit)

/-- Per-category lines printed by `main` (pruner.py lines 344-364): the
total row count, the count of hands newer than the cutoff, and the
category's pruning result. -/
structure CategoryReport where
  handType : HandType
  totalHands : Nat
  retained : Nat
  result : PruneResult
deriving DecidableEq

/-- State after `main`'s per-type loop (pruner.py lines 341-364). -/
structure GoOut where
  st : TxState
  reps : List CategoryReport
  total : Nat
  errored : Bool
deriving DecidableEq

/-- `main`'s final disposition print (pruner.py lines 367-392). -/
inductive Disposition where
  | committedReport
  | dryRunReport
  | nothingToDo
  | dbError
deriving DecidableEq

/-- The observable outcome of one run: the database state that survives
the run (committed or rolled back), whether
the commit took effect, which final message was printed, the per-category
reports, and `total_pruned_summary`. -/
structure RunResult where
  finalDb : DB
  committed : Bool
  disposition : Disposition
  reps : List CategoryReport
  totalPruned : Nat
deriving DecidableEq

/-- `main`'s per-type loop (pruner.py lines 341-364): two count queries
(which raise if the transaction is aborted), then `execute_bulk_pruning`;
a raised exception stops the loop and is handled by the `except` clauses
(lines 386-392). -/
def mainGo (dryRun : Bool) (handLimit : Nat) (now days cutoff : Int)
    (failAt : HandType → Nat → Bool) : List HandType → TxState → List CategoryReport → Nat →
    GoOut
  | [], st, reps, total => ⟨st, reps, total, false⟩
  | ht :: rest, st, reps, total =>
    if st.aborted then ⟨st, reps, total, true⟩
    else
      match executeBulkPruning ht now days cutoff dryRun handLimit (failAt ht) st with
      | .raised stE => ⟨stE, reps, total, true⟩
      | .done res st' =>
        let rep : CategoryReport :=
          ⟨ht, (st.db.get ht).summary.length,
            ((st.db.get ht).summary.filter (fun s => decide (cutoff < s.datePlayed))).length,
            res⟩
        mainGo dryRun handLimit now days cutoff failAt rest st' (reps ++ [rep])
          (total + res.retSummary)

/-- `main` (pruner.py lines 318-398).  The cutoff is `now - days`
(line 337).  On an exception: rollback, error disposition.  Otherwise
(lines 367-383): if commit mode and `total_pruned_summary > 0`, issue
COMMIT and print the success report — if the transaction is aborted,
PostgreSQL executes that COMMIT as a ROLLBACK, so nothing persists; if the
total is positive in dry run, print the dry-run report and roll back;
else print nothing-to-do and roll back. -/
def mainRun (db0 : DB) (types : List HandType) (dryRun : Bool) (handLimit : Nat)
    (now days : Int) (failAt : HandType → Nat → Bool) : RunResult :=
  let cutoff := now - days
  let out := mainGo dryRun handLimit now days cutoff failAt types ⟨db0, false⟩ [] 0
  if out.errored then ⟨db0, false, .dbError, out.reps, out.total⟩
  else if !dryRun && decide (0 < out.total) then
    if out.st.aborted then ⟨db0, false, .committedReport, out.reps, out.total⟩
    else ⟨out.st.db, true, .committedReport, out.reps, out.total⟩
  else if 0 < out.total then ⟨db0, false, .dryRunReport, out.reps, out.total⟩
  else ⟨db0, false, .nothingToDo, out.reps, out.total⟩

/-- Database state visible to the pre-scan resolver statement in the C1
scenario: hand 1 (day 100) whose only participant is player 7, who has no
qualifying recent activity. -/
def dbC1pre : DB := ⟨⟨[⟨1, 100⟩], [⟨1, 7⟩]⟩, ⟨[], []⟩⟩

/-- Database state visible to window 0's classification statement in the
C1 scenario: a concurrent writer has inserted hand 2 (day 999) with
participant 7, making player 7 active. -/
def dbC1win : DB := ⟨⟨[⟨1, 100⟩, ⟨2, 999⟩], [⟨1, 7⟩, ⟨2, 7⟩]⟩, ⟨[], []⟩⟩

/-- C2 scenario database: one old participant-free hand per category. -/
def dbC2 : DB := ⟨⟨[⟨1, 100⟩], []⟩, ⟨[⟨10, 100⟩], []⟩⟩

/-- Failure oracle of the C2 scenario: the tourney category's first
classification query raises; everything else succeeds. -/
def failTourney : HandType → Nat → Bool
  | .tourney, _ => true
  | .cash, _ => false

/-- A one-hand database with no participation rows. -/
def dbTiny : DB := ⟨⟨[⟨1, 100⟩], []⟩, ⟨[], []⟩⟩

/-- Witness database for C3: hand 3 (day 100) with no participants. -/
def dbW3 : DB := ⟨⟨[⟨3, 100⟩], []⟩, ⟨[], []⟩⟩

/-- Witness category for C4: two hands, one participant each. -/
def cW4 : CategoryDB := ⟨[⟨1, 100⟩, ⟨2, 200⟩], [⟨1, 7⟩, ⟨2, 8⟩]⟩

/-- The empty database. -/
def dbEmpty : DB := ⟨⟨[], []⟩, ⟨[], []⟩⟩

/-- Referential integrity of one category (spec section 3): every
participation row's identifier references an existing summary row. -/
def refIntegrity (c : CategoryDB) : Prop :=
  ∀ ps ∈ c.stats, ∃ s ∈ c.summary, s.idHand = ps.idHand

instance refIntegrityDecidable (c : CategoryDB) : Decidable (refIntegrity c) := by
  unfold refIntegrity
  infer_instance

/-- The window count covers the whole limit: `limit ≤ windowCount * w`. -/
theorem windowCount_mul_ge (L W : Nat) (hW : 0 < W) : L ≤ windowCount L W * W := by
  have h := Nat.div_add_mod (L + W - 1) W
  have h2 : (L + W - 1) % W < W := Nat.mod_lt _ hW
  rw [windowCount, Nat.mul_comm]
  set q := (L + W - 1) / W with hq
  set r := (L + W - 1) % W with hr
  set t := W * q with ht
  omega

/-- Every window index below the count has an offset strictly inside the
limit. -/
theorem windowIndex_mul_lt (L W : Nat) (hL : 0 < L) (hW : 0 < W) :
    ∀ k, k < windowCount L W → k * W < L := by
  intro k hk
  have hk1 : k + 1 ≤ windowCount L W := hk
  rw [windowCount] at hk1
  have h3 : (k + 1) * W ≤ L + W - 1 := (Nat.le_div_iff_mul_le hW).mp hk1
  rw [Nat.succ_mul] at h3
  set t := k * W with ht
  omega

/-- Closed form of the visited windows: when every index has an in-range
offset, the loop visits exactly the planned `(offset, size)` pairs. -/
theorem scanWindowsGo_eq_map (L W : Nat) (hW : 0 < W) :
    ∀ (n i : Nat), (∀ j, j < n → (i + j) * W < L) →
      scanWindowsGo L W n i =
        (List.range n).map (fun j => ((i + j) * W, min W (L - (i + j) * W))) := by
  intro n
  induction n with
  | zero => intro i _; simp [scanWindowsGo]
  | succ n ih =>
    intro i hj
    have h0 : i * W < L := by simpa using hj 0 (Nat.succ_pos n)
    have hcur : ¬ (min W (L - i * W) = 0) := by
      have h1 : 0 < L - i * W := Nat.sub_pos_of_lt h0
      omega
    rw [scanWindowsGo]
    simp only [hcur, if_false, List.range_succ_eq_map, List.map_cons, List.map_map]
    congr 1
    rw [ih (i + 1) (fun j hjn => by
      have := hj (j + 1) (Nat.succ_lt_succ hjn)
      have harg : i + (j + 1) = i + 1 + j := by omega
      rwa [harg] at this)]
    have hfe : (fun j => ((i + 1 + j) * W, min W (L - (i + 1 + j) * W))) =
        ((fun j => ((i + j) * W, min W (L - (i + j) * W))) ∘ Nat.succ) := by
      funext j
      simp only [Function.comp, Nat.succ_eq_add_one]
      have harg : i + (j + 1) = i + 1 + j := by omega
      rw [harg]
    rw [hfe]

/-- The visited window sizes sum to `min (L - i*W) (n*W)`. -/
theorem scanWindowsGo_sum (L W : Nat) (hW : 0 < W) :
    ∀ (n i : Nat), ((scanWindowsGo L W n i).map Prod.snd).sum = min (L - i * W) (n * W) := by
  intro n
  induction n with
  | zero => intro i; simp [scanWindowsGo]
  | succ n ih =>
    intro i
    rw [scanWindowsGo]
    by_cases hc : min W (L - i * W) = 0
    · rw [if_pos hc]
      simp only [List.map_nil, List.sum_nil]
      rw [Nat.succ_mul]
      set a := i * W with ha
      set u := n * W with hu
      omega
    · rw [if_neg hc]
      simp only [List.map_cons, List.sum_cons, ih (i + 1)]
      rw [Nat.succ_mul, Nat.succ_mul]
      set a := i * W with ha
      set u := n * W with hu
      omega

/-- Claim C7: for every positive limit `L` and window size `W`, the
windowed scan emits exactly `ceil(L/W)` windows, window `i` having offset
`i*W` and size `min W (L - i*W)`; the sizes sum to exactly `L` and no
offset is visited twice; in particular `L = 250`, `W = 100` yields the
windows `(0,100), (100,100), (200,50)`. -/
theorem c7_window_plan (L W : Nat) (hL : 0 < L) (hW : 0 < W) :
    scanWindows L W =
      (List.range (windowCount L W)).map (fun i => (i * W, min W (L - i * W)))
    ∧ (scanWindows L W).length = windowCount L W
    ∧ L ≤ windowCount L W * W
    ∧ (windowCount L W - 1) * W < L
    ∧ ((scanWindows L W).map Prod.snd).sum = L
    ∧ ((scanWindows L W).map Prod.fst).Nodup
    ∧ scanWindows 250 100 = [(0, 100), (100, 100), (200, 50)] := by
  have hcount : 0 < windowCount L W := by
    rw [windowCount]
    have h1 : (1 : Nat) ≤ (L + W - 1) / W := (Nat.le_div_iff_mul_le hW).mpr (by omega)
    omega
  have hmap : scanWindows L W =
      (List.range (windowCount L W)).map (fun i => (i * W, min W (L - i * W))) := by
    rw [scanWindows]
    rw [scanWindowsGo_eq_map L W hW (windowCount L W) 0 (fun j hj => by
      simpa using windowIndex_mul_lt L W hL hW j hj)]
    simp
  refine ⟨hmap, ?_, windowCount_mul_ge L W hW, ?_, ?_, ?_, by decide⟩
  · rw [hmap]; simp
  · exact windowIndex_mul_lt L W hL hW _ (by omega)
  · rw [scanWindows, scanWindowsGo_sum L W hW]
    have h1 : L - 0 * W = L := by omega
    rw [h1]
    exact Nat.min_eq_left (windowCount_mul_ge L W hW)
  · rw [hmap, List.map_map]
    have h2 : (Prod.fst ∘ fun i : Nat => (i * W, min W (L - i * W))) =
        fun i : Nat => i * W := rfl
    rw [h2]
    exact List.Nodup.map (fun a b h => Nat.eq_of_mul_eq_mul_right hW h) (List.nodup_range _)

/-- Witness for C7 at `L = 250`, `W = 100`. -/
theorem c7_window_plan_witness :
    ((scanWindows 250 100).map Prod.snd).sum = 250 ∧
      scanWindows 250 100 = [(0, 100), (100, 100), (200, 50)] :=
  ⟨(c7_window_plan 250 100 (by decide) (by decide)).2.2.2.2.1,
   (c7_window_plan 250 100 (by decide) (by decide)).2.2.2.2.2.2⟩

/-- The anti-join of the classification query misses a hand exactly when
none of its participation rows joins an active player. -/
theorem hasActiveParticipant_eq_false_iff (db : DB) (ht : HandType) (now days : Int)
    (h : Nat) :
    hasActiveParticipant db ht now days h = false ↔
      ∀ ps ∈ (db.get ht).stats, ps.idHand = h →
        isActivePlayer db now days ps.idPlayer = false := by
  rw [hasActiveParticipant, List.any_eq_false]
  constructor
  · intro H ps hps hid
    have h2 := H ps hps
    simp [hid] at h2
    exact h2
  · intro H ps hps
    by_cases hid : ps.idHand = h
    · simp [hid, H ps hps hid]
    · simp [hid]

/-- Membership in one window's classification result. -/
theorem mem_classifyWindow_iff (db : DB) (ht : HandType) (now days cutoff : Int)
    (lim off : Nat) (h : Nat) :
    h ∈ classifyWindow db ht now days cutoff lim off ↔
      ∃ s, s ∈ candidates (db.get ht) cutoff lim off ∧ s.idHand = h ∧
        ∀ ps ∈ (db.get ht).stats, ps.idHand = h →
          isActivePlayer db now days ps.idPlayer = false := by
  simp only [classifyWindow, List.mem_map, List.mem_filter, Bool.not_eq_true']
  constructor
  · rintro ⟨s, ⟨hc, hfalse⟩, rfl⟩
    exact ⟨s, hc, rfl, (hasActiveParticipant_eq_false_iff db ht now days s.idHand).mp hfalse⟩
  · rintro ⟨s, hc, rfl, hall⟩
    exact ⟨s, ⟨hc, (hasActiveParticipant_eq_false_iff db ht now days s.idHand).mpr hall⟩, rfl⟩

/-- Claim C3: a candidate hand of a scanned window is placed in the
prunable set iff none of its participation rows references a player of the
active set; in particular every candidate hand with zero participation
rows is prunable. -/
theorem c3_set_difference (db : DB) (ht : HandType) (now days cutoff : Int)
    (lim off : Nat) :
    (∀ h : Nat,
      h ∈ classifyWindow db ht now days cutoff lim off ↔
        ∃ s, s ∈ candidates (db.get ht) cutoff lim off ∧ s.idHand = h ∧
          ∀ ps ∈ (db.get ht).stats, ps.idHand = h →
            isActivePlayer db now days ps.idPlayer = false)
    ∧ (∀ s, s ∈ candidates (db.get ht) cutoff lim off →
        (∀ ps ∈ (db.get ht).stats, ps.idHand ≠ s.idHand) →
        s.idHand ∈ classifyWindow db ht now days cutoff lim off) := by
  refine ⟨fun h => mem_classifyWindow_iff db ht now days cutoff lim off h, ?_⟩
  intro s hs hnone
  exact (mem_classifyWindow_iff db ht now days cutoff lim off s.idHand).mpr
    ⟨s, hs, rfl, fun ps hps hid => absurd hid (hnone ps hps)⟩

/-- Witness for C3: in `dbW3`, hand 3 has no participation rows and is a
window candidate, so it is classified prunable. -/
theorem c3_set_difference_witness :
    (3 : Nat) ∈ classifyWindow dbW3 .cash 1000 365 635 10 0 :=
  (c3_set_difference dbW3 .cash 1000 365 635 10 0).2 ⟨3, 100⟩ (by decide) (by decide)

/-- Claim C4: the Bulk Remover deletes the staged participation (child)
rows strictly before the summary (parent) rows, so referential integrity
holds after the child delete, after the parent delete, and hence at every
point of the removal; `bulkRemove`'s final state is exactly the
child-then-parent deletion. -/
theorem c4_children_before_parents (c : CategoryDB) (ids : List Nat)
    (h : refIntegrity c) :
    refIntegrity (deleteStatsRows c ids)
    ∧ (∀ ps ∈ (deleteStatsRows c ids).stats, ps.idHand ∉ ids)
    ∧ refIntegrity (deleteSummaryRows (deleteStatsRows c ids) ids)
    ∧ (bulkRemove c ids).catdb = deleteSummaryRows (deleteStatsRows c ids) ids := by
  have hnotin : ∀ ps ∈ (deleteStatsRows c ids).stats, ps.idHand ∉ ids := by
    intro ps hps
    rw [deleteStatsRows] at hps
    have h2 := (List.mem_filter.mp hps).2
    simpa using h2
  refine ⟨?_, hnotin, ?_, rfl⟩
  · intro ps hps
    rw [deleteStatsRows] at hps
    exact h ps (List.mem_filter.mp hps).1
  · intro ps hps
    have hps' : ps ∈ (deleteStatsRows c ids).stats := hps
    have hmem : ps ∈ c.stats := by
      rw [deleteStatsRows] at hps'
      exact (List.mem_filter.mp hps').1
    obtain ⟨s, hsmem, heq⟩ := h ps hmem
    refine ⟨s, ?_, heq⟩
    rw [deleteSummaryRows]
    apply List.mem_filter.mpr
    refine ⟨hsmem, ?_⟩
    have hnot : s.idHand ∉ ids := heq ▸ hnotin ps hps'
    simpa using hnot

/-- Witness for C4 on the concrete category `cW4` with staged ids `[1]`. -/
theorem c4_children_before_parents_witness :
    refIntegrity (deleteStatsRows cW4 [1]) ∧
      refIntegrity (deleteSummaryRows (deleteStatsRows cW4 [1]) [1]) :=
  ⟨(c4_children_before_parents cW4 [1] (by decide)).1,
   (c4_children_before_parents cW4 [1] (by decide)).2.2.1⟩

/-- A window loop whose classification queries all succeed never reports a
scan error. -/
theorem scanGo_noFail (dbs : Nat → DB) (ht : HandType) (now days cutoff : Int) :
    ∀ (ws : List (Nat × Nat)) (i : Nat),
      (scanGo dbs (fun _ => false) ht now days cutoff ws i).2 = false := by
  intro ws
  induction ws with
  | nil => intro i; rfl
  | cons hd tl ih =>
    intro i
    obtain ⟨off, sz⟩ := hd
    rw [scanGo]
    simpa using ih (i + 1)

/-- `prunePhase` of an error-free scan always returns, with a live
transaction. -/
theorem prunePhase_noAbort (ht : HandType) (dryRun : Bool) (db : DB) (scan : ScanOut)
    (h : scan.errored = false) :
    ∃ res st', prunePhase ht dryRun db scan = .done res st' ∧ st'.aborted = false := by
  simp only [prunePhase]
  by_cases h0 : scan.ids.length = 0
  · rw [if_pos h0]
    exact ⟨_, _, rfl, h⟩
  · rw [if_neg h0]
    by_cases hd : dryRun = true
    · rw [if_pos hd]
      exact ⟨_, _, rfl, h⟩
    · rw [if_neg hd, if_neg (by simp [h])]
      exact ⟨_, _, rfl, rfl⟩

/-- In dry run, `prunePhase` always returns without touching the
database, reporting zero deleted rows and the eligible count. -/
theorem prunePhase_dry (ht : HandType) (db : DB) (scan : ScanOut) :
    ∃ res, prunePhase ht true db scan = .done res ⟨db, scan.errored⟩
      ∧ res.retStats = 0 ∧ res.retSummary = res.eligible := by
  simp only [prunePhase]
  by_cases h0 : scan.ids.length = 0
  · rw [if_pos h0]
    exact ⟨_, rfl, rfl, rfl⟩
  · rw [if_neg h0, if_pos trivial]
    exact ⟨_, rfl, rfl, rfl⟩

/-- An empty scan result makes `prunePhase` return `(0, 0)` at once,
regardless of the dry-run flag, without touching the database. -/
theorem prunePhase_empty (ht : HandType) (dryRun : Bool) (db : DB) (scan : ScanOut)
    (h : scan.ids = []) :
    prunePhase ht dryRun db scan =
      .done ⟨0, 0, 0, false, scan.errored, scan.activeCount⟩ ⟨db, scan.errored⟩ := by
  simp only [prunePhase, h, List.length_nil]
  rw [if_pos trivial]

/-- A scan phase whose classification queries all succeed never reports a
scan error, over any window list. -/
theorem scanPhaseWs_errored_noFail (dbCount : DB) (dbs : Nat → DB) (ht : HandType)
    (now days cutoff : Int) (ws : List (Nat × Nat)) :
    (scanPhaseWs dbCount dbs (fun _ => false) ht now days cutoff ws).errored = false :=
  scanGo_noFail dbs ht now days cutoff ws 0

/-- With no failing statement and a live transaction,
`execute_bulk_pruning` returns and leaves the transaction live. -/
theorem ebp_noFail (ht : HandType) (now days cutoff : Int) (dryRun : Bool)
    (handLimit : Nat) (st : TxState) (hab : st.aborted = false) :
    ∃ res st', executeBulkPruning ht now days cutoff dryRun handLimit (fun _ => false) st =
      .done res st' ∧ st'.aborted = false := by
  have hsc : (scanPhase st.db (fun _ => st.db) (fun _ => false) ht now days cutoff
      handLimit).errored = false := by
    rw [scanPhase]
    exact scanPhaseWs_errored_noFail st.db (fun _ => st.db) ht now days cutoff _
  rw [executeBulkPruning, if_neg (by simp [hab])]
  exact prunePhase_noAbort ht dryRun st.db _ hsc

/-- With no failing statement, `main`'s per-type loop completes without a
propagated exception and the transaction stays live. -/
theorem mainGo_noFail (dryRun : Bool) (handLimit : Nat) (now days cutoff : Int) :
    ∀ (types : List HandType) (st : TxState) (reps : List CategoryReport) (total : Nat),
      st.aborted = false →
      (mainGo dryRun handLimit now days cutoff (fun _ _ => false) types st reps
          total).errored = false ∧
      (mainGo dryRun handLimit now days cutoff (fun _ _ => false) types st reps
          total).st.aborted = false := by
  intro types
  induction types with
  | nil => intro st reps total hab; exact ⟨rfl, hab⟩
  | cons ht rest ih =>
    intro st reps total hab
    rw [mainGo]
    simp only [hab, Bool.false_eq_true, if_false]
    obtain ⟨res, st', heq, hab'⟩ := ebp_noFail ht now days cutoff dryRun handLimit st hab
    rw [heq]
    exact ih st' _ _ hab'

/-- With no failing statement, the run commits exactly when commit mode is
on and `total_pruned_summary` is positive, and a non-committing run keeps
the initial database. -/
theorem mainRun_noFail_spec (db0 : DB) (types : List HandType) (dryRun : Bool)
    (handLimit : Nat) (now days : Int) :
    (mainRun db0 types dryRun handLimit now days (fun _ _ => false)).committed =
      (!dryRun && decide (0 < (mainRun db0 types dryRun handLimit now days
        (fun _ _ => false)).totalPruned))
    ∧ ((mainRun db0 types dryRun handLimit now days (fun _ _ => false)).committed = false →
      (mainRun db0 types dryRun handLimit now days (fun _ _ => false)).finalDb = db0) := by
  obtain ⟨herr, habort⟩ := mainGo_noFail dryRun handLimit now days (now - days) types
    ⟨db0, false⟩ [] 0 rfl
  rw [mainRun]
  set out := mainGo dryRun handLimit now days (now - days) (fun _ _ => false) types
    ⟨db0, false⟩ [] 0 with hout
  simp only [herr, Bool.false_eq_true, if_false]
  by_cases hc : (!dryRun && decide (0 < out.total)) = true
  · rw [if_pos hc, if_neg (by simp [habort])]
    exact ⟨by simp [hc], fun h => absurd h (by simp)⟩
  · rw [if_neg hc]
    by_cases ht0 : 0 < out.total
    · rw [if_pos ht0]
      refine ⟨?_, fun _ => rfl⟩
      simp only [Bool.not_eq_true] at hc
      simp [hc]
    · rw [if_neg ht0]
      refine ⟨?_, fun _ => rfl⟩
      simp only [Bool.not_eq_true] at hc
      simp [hc]

/-- Claim C6: at run end (with every query succeeding, i.e. reaching the
Deciding step of pruner.py lines 367-383) the engine commits the single
transaction iff commit mode is enabled and `total_pruned_summary > 0`; in
every other case (dry run, or a zero total) it rolls back and the
transaction's effect on the database is null. -/
theorem c6_commit_iff (db0 : DB) (types : List HandType) (dryRun : Bool)
    (handLimit : Nat) (now days : Int) :
    ((mainRun db0 types dryRun handLimit now days (fun _ _ => false)).committed = true ↔
      dryRun = false ∧
        0 < (mainRun db0 types dryRun handLimit now days (fun _ _ => false)).totalPruned)
    ∧ ((dryRun = true ∨
        (mainRun db0 types dryRun handLimit now days (fun _ _ => false)).totalPruned = 0) →
      (mainRun db0 types dryRun handLimit now days (fun _ _ => false)).committed = false ∧
        (mainRun db0 types dryRun handLimit now days (fun _ _ => false)).finalDb = db0) := by
  obtain ⟨h1, h2⟩ := mainRun_noFail_spec db0 types dryRun handLimit now days
  constructor
  · rw [h1]
    simp [Bool.and_eq_true, Bool.not_eq_true']
  · intro hcase
    have hfalse :
        (mainRun db0 types dryRun handLimit now days (fun _ _ => false)).committed = false := by
      rw [h1]
      rcases hcase with h | h
      · simp [h]
      · simp [h]
    exact ⟨hfalse, h2 hfalse⟩

/-- Witness for C6: a dry run over `dbTiny` rolls back and keeps the
database. -/
theorem c6_commit_iff_witness :
    (mainRun dbTiny [.cash] true 5 1000 365 (fun _ _ => false)).committed = false ∧
      (mainRun dbTiny [.cash] true 5 1000 365 (fun _ _ => false)).finalDb = dbTiny :=
  (c6_commit_iff dbTiny [.cash] true 5 1000 365).2 (Or.inl rfl)

/-- Claim C8: a mismatch between the deleted summary rowcount and the
staged id count is flagged by the warning of pruner.py lines 311-313
(never silently ignored), the removal still completes both deletes and
returns its counts, and the commit decision of the run depends only on the
dry-run flag and `total_pruned_summary`, never on the warning. -/
theorem c8_mismatch_warning (c : CategoryDB) (ids : List Nat) :
    ((bulkRemove c ids).warning = true ↔ (bulkRemove c ids).summaryDeleted ≠ ids.length)
    ∧ (bulkRemove c ids).catdb = deleteSummaryRows (deleteStatsRows c ids) ids
    ∧ ∀ (db0 : DB) (types : List HandType) (dryRun : Bool) (handLimit : Nat)
        (now days : Int),
        (mainRun db0 types dryRun handLimit now days (fun _ _ => false)).committed =
          (!dryRun && decide (0 < (mainRun db0 types dryRun handLimit now days
            (fun _ _ => false)).totalPruned)) := by
  refine ⟨?_, rfl, fun db0 types dryRun handLimit now days =>
    (mainRun_noFail_spec db0 types dryRun handLimit now days).1⟩
  simp [bulkRemove, bne_iff_ne]

/-- In dry run, `execute_bulk_pruning` never touches the database, and a
returned result reports zero deleted rows with the eligible count as the
returned summary figure. -/
theorem ebp_dry (ht : HandType) (now days cutoff : Int) (handLimit : Nat)
    (fails : Nat → Bool) (st : TxState) :
    (∀ stE, executeBulkPruning ht now days cutoff true handLimit fails st = .raised stE →
      stE.db = st.db)
    ∧ (∀ res st', executeBulkPruning ht now days cutoff true handLimit fails st =
        .done res st' →
      st'.db = st.db ∧ res.retStats = 0 ∧ res.retSummary = res.eligible) := by
  rw [executeBulkPruning]
  by_cases hab : st.aborted
  · rw [if_pos hab]
    constructor
    · intro stE h
      cases h
      rfl
    · intro res st' h
      cases h
  · rw [if_neg hab]
    obtain ⟨res0, heq, h1, h2⟩ := prunePhase_dry ht st.db
      (scanPhase st.db (fun _ => st.db) fails ht now days cutoff handLimit)
    rw [heq]
    constructor
    · intro stE h
      cases h
    · intro res st' h
      cases h
      exact ⟨rfl, h1, h2⟩

/-- In dry run, `main`'s loop keeps the database untouched and every
report it appends carries zero deleted rows and the eligible count. -/
theorem mainGo_dry (handLimit : Nat) (now days cutoff : Int)
    (failAt : HandType → Nat → Bool) :
    ∀ (types : List HandType) (st : TxState) (reps : List CategoryReport) (total : Nat),
      (mainGo true handLimit now days cutoff failAt types st reps total).st.db = st.db
      ∧ ∀ rep ∈ (mainGo true handLimit now days cutoff failAt types st reps total).reps,
          rep ∈ reps ∨
            (rep.result.retStats = 0 ∧ rep.result.retSummary = rep.result.eligible) := by
  intro types
  induction types with
  | nil => intro st reps total; exact ⟨rfl, fun rep h => Or.inl h⟩
  | cons ht rest ih =>
    intro st reps total
    rw [mainGo]
    by_cases hab : st.aborted
    · rw [if_pos hab]
      exact ⟨rfl, fun rep h => Or.inl h⟩
    · rw [if_neg hab]
      cases heq : executeBulkPruning ht now days cutoff true handLimit (failAt ht) st with
      | raised stE =>
        exact ⟨(ebp_dry ht now days cutoff handLimit (failAt ht) st).1 stE heq,
          fun rep h => Or.inl h⟩
      | done res st' =>
        obtain ⟨hdb, h0, hsum⟩ :=
          (ebp_dry ht now days cutoff handLimit (failAt ht) st).2 res st' heq
        obtain ⟨ih1, ih2⟩ := ih st'
          (reps ++ [⟨ht, (st.db.get ht).summary.length,
            ((st.db.get ht).summary.filter (fun s => decide (cutoff < s.datePlayed))).length,
            res⟩])
          (total + res.retSummary)
        refine ⟨by rw [ih1, hdb], ?_⟩
        intro rep h
        rcases ih2 rep h with hin | hgood
        · rcases List.mem_append.mp hin with h1 | h2
          · exact Or.inl h1
          · have hr := List.mem_singleton.mp h2
            subst hr
            exact Or.inr ⟨h0, hsum⟩
        · exact Or.inr hgood

/-- Claim C5: a dry run (`commit=false`) mutates no database row, is
finalized by rollback, reports per category the eligible count as the
would-delete figure with zero actual deletions, and repeating it on the
database state it leaves behind reproduces the identical result (hence
identical eligible counts). -/
theorem c5_dry_run_frame (db0 : DB) (types : List HandType) (handLimit : Nat)
    (now days : Int) (failAt : HandType → Nat → Bool) :
    (mainRun db0 types true handLimit now days failAt).committed = false
    ∧ (mainRun db0 types true handLimit now days failAt).finalDb = db0
    ∧ (∀ rep ∈ (mainRun db0 types true handLimit now days failAt).reps,
        rep.result.retStats = 0 ∧ rep.result.retSummary = rep.result.eligible)
    ∧ mainRun (mainRun db0 types true handLimit now days failAt).finalDb types true
        handLimit now days failAt = mainRun db0 types true handLimit now days failAt := by
  have key : (mainRun db0 types true handLimit now days failAt).committed = false
      ∧ (mainRun db0 types true handLimit now days failAt).finalDb = db0
      ∧ (mainRun db0 types true handLimit now days failAt).reps =
        (mainGo true handLimit now days (now - days) failAt types ⟨db0, false⟩ [] 0).reps := by
    rw [mainRun]
    set out := mainGo true handLimit now days (now - days) failAt types ⟨db0, false⟩ [] 0
      with hout
    by_cases herr : out.errored
    · simp [herr]
    · simp only [herr, Bool.false_eq_true, if_false, Bool.not_true, Bool.false_and]
      by_cases ht0 : 0 < out.total
      · simp [ht0]
      · simp [ht0]
  refine ⟨key.1, key.2.1, ?_, ?_⟩
  · intro rep h
    rw [key.2.2] at h
    rcases (mainGo_dry handLimit now days (now - days) failAt types
      ⟨db0, false⟩ [] 0).2 rep h with hin | hgood
    · cases hin
    · exact hgood
  · rw [key.2.1]

/-- Witness for C5: dry run over `dbTiny` with one category. -/
theorem c5_dry_run_frame_witness :
    (mainRun dbTiny [.cash] true 5 1000 365 (fun _ _ => false)).committed = false ∧
      (mainRun dbTiny [.cash] true 5 1000 365 (fun _ _ => false)).finalDb = dbTiny ∧
      (⟨.cash, 1, 0, ⟨1, 0, 1, false, false, 0⟩⟩ : CategoryReport).result.retStats = 0 :=
  ⟨(c5_dry_run_frame dbTiny [.cash] 5 1000 365 (fun _ _ => false)).1,
   (c5_dry_run_frame dbTiny [.cash] 5 1000 365 (fun _ _ => false)).2.1,
   ((c5_dry_run_frame dbTiny [.cash] 5 1000 365 (fun _ _ => false)).2.2.1
     ⟨.cash, 1, 0, ⟨1, 0, 1, false, false, 0⟩⟩ (by decide)).1⟩

/-- Claim C10: when the accumulated prunable set of a category is empty,
`execute_bulk_pruning` returns the count pair `(0, 0)` at once (pruner.py
lines 269-270) — before the dry-run test, before any staging statement and
before any delete statement — even in commit mode, leaving the database
untouched. -/
theorem c10_empty_prunable (ht : HandType) (now days cutoff : Int) (dryRun : Bool)
    (handLimit : Nat) (fails : Nat → Bool) (st : TxState)
    (hab : st.aborted = false)
    (hids : (scanPhase st.db (fun _ => st.db) fails ht now days cutoff handLimit).ids = []) :
    executeBulkPruning ht now days cutoff dryRun handLimit fails st =
      .done ⟨0, 0, 0, false,
          (scanPhase st.db (fun _ => st.db) fails ht now days cutoff handLimit).errored,
          (scanPhase st.db (fun _ => st.db) fails ht now days cutoff handLimit).activeCount⟩
        ⟨st.db,
          (scanPhase st.db (fun _ => st.db) fails ht now days cutoff handLimit).errored⟩ := by
  rw [executeBulkPruning, if_neg (by simp [hab])]
  exact prunePhase_empty ht dryRun st.db _ hids

/-- Witness for C10: commit mode over the empty database. -/
theorem c10_empty_prunable_witness :
    executeBulkPruning .cash 1000 365 635 false 5 (fun _ => false) ⟨dbEmpty, false⟩ =
      .done ⟨0, 0, 0, false, false, 0⟩ ⟨dbEmpty, false⟩ := by
  rw [c10_empty_prunable .cash 1000 365 635 false 5 (fun _ => false) ⟨dbEmpty, false⟩ rfl
    (by decide)]
  decide

/-- Claim C1 is violated by the code: the `global_active_players` CTE is
textually re-embedded in every window's classification query (pruner.py
lines 188-212), so each window re-derives the active set from its own
statement-time database state instead of the snapshot resolved by the
pre-scan statement of line 159.  Concretely: at resolve time
(`dbC1pre`) the active set is empty and player 7 is inactive, so the
fixed-snapshot judgment of the spec prunes hand 1; but a concurrent
insert (`dbC1win`) makes player 7 active before window 0 runs, and the
code's recomputing query retains hand 1 — the scan returns no ids. -/
theorem c1_recompute_bug :
    globalActivePlayersList dbC1pre 1000 365 = []
    ∧ isActivePlayer dbC1pre 1000 365 7 = false
    ∧ isActivePlayer dbC1win 1000 365 7 = true
    ∧ classifyWindowFixedSnapshot dbC1pre dbC1win .cash 1000 365 635 5 0 = [1]
    ∧ (scanPhase dbC1pre (fun _ => dbC1win) (fun _ => false) .cash 1000 365 635 5).ids
        = [] := by
  decide

/-- Claim C2 is violated by the code: in a commit-mode run over both
categories where the cash scan succeeds (its one prunable hand is deleted
inside the transaction) and the tourney category's first classification
query fails, `execute_bulk_pruning` catches the error, breaks, and
returns `(0, 0)`; `main` then reaches the commit branch and prints the
success report ("Successfully deleted 1 hands"), although the aborted
transaction makes the COMMIT act as a ROLLBACK: nothing is deleted
(`finalDb = dbC2`), yet no non-committed partial report is produced. -/
theorem c2_false_success_bug :
    (mainRun dbC2 [.cash, .tourney] false 5 1000 365 failTourney).disposition =
      .committedReport
    ∧ (mainRun dbC2 [.cash, .tourney] false 5 1000 365 failTourney).committed = false
    ∧ (mainRun dbC2 [.cash, .tourney] false 5 1000 365 failTourney).finalDb = dbC2
    ∧ (mainRun dbC2 [.cash, .tourney] false 5 1000 365 failTourney).totalPruned = 1 := by
  decide

/-- Counterexample to claim C9: the window size constant of the scan loop
is 500,000, not 100,000 (the Boolean comparison evaluates to false). -/
theorem c9_counterexample : BATCH_SIZE = 500000 ∧ (BATCH_SIZE == 100000) = false := by
  decide

/-- Claim C9 as amended: the window size used for scanning is the fixed,
non-configurable constant 500,000 (pruner.py line 165): the scan phase
derives its windows from `BATCH_SIZE`, so the default 1,000,000-hand
limit is covered by two 500,000-hand windows. -/
theorem c9_amended :
    BATCH_SIZE = 500000
    ∧ windowCount 1000000 BATCH_SIZE = 2
    ∧ scanWindows 1000000 BATCH_SIZE = [(0, 500000), (500000, 500000)] := by
  decide

/-- Witness for C8: staging id 5 against a category with no matching
summary row yields a zero rowcount, and the mismatch raises the warning
flag. -/
theorem c8_mismatch_warning_witness : (bulkRemove ⟨[], []⟩ [5]).warning = true :=
  ((c8_mismatch_warning ⟨[], []⟩ [5]).1).mpr (by decide)
